import Mathlib

/-!
Verification of the pipette control state machine and serial command
dispatcher of `src/hardware/arduino/pawduino_v2/pawduino_v2.cpp`
(PANDA-BEAR Arduino controller).

The firmware's floats are modelled as rationals (`ℚ`), its global pipette
state variables as the structure `PipetteState`, and each handler as a pure
function from the incoming state to a result carrying the boolean return
value, the successor state, the serial lines printed, and the absolute step
targets commanded to the stepper driver.  The stepper driver and the limit
switch are external collaborators: their physical motion loops are not
reimplemented, only the targets handed to `moveTo` are recorded.
-/

namespace Pawduino

/-- Constant `PIPETTE_MAX_POSITION`: maximum travel in mm. -/
def PIPETTE_MAX_POSITION : ℚ := 100

/-- Constant `PIPETTE_STEPS_PER_MM`: step units per mm for the Gen2 pipette. -/
def PIPETTE_STEPS_PER_MM : ℚ := 200

/-- Response code `RESP_PIPETTE_HOMED`. -/
def RESP_PIPETTE_HOMED : Int := 109

/-- Response code `RESP_PIPETTE_MOVED`. -/
def RESP_PIPETTE_MOVED : Int := 110

/-- Response code `RESP_PIPETTE_ASPIRATED`. -/
def RESP_PIPETTE_ASPIRATED : Int := 111

/-- Response code `RESP_PIPETTE_DISPENSED`. -/
def RESP_PIPETTE_DISPENSED : Int := 112

/-- Response code `RESP_PIPETTE_STATUS`. -/
def RESP_PIPETTE_STATUS : Int := 113

/-- Response code `RESP_WHITE_ON`. -/
def RESP_WHITE_ON : Int := 101

/-- Response code `RESP_WHITE_OFF`. -/
def RESP_WHITE_OFF : Int := 102

/-- Response code `RESP_CONTACT_ON`. -/
def RESP_CONTACT_ON : Int := 103

/-- Response code `RESP_CONTACT_OFF`. -/
def RESP_CONTACT_OFF : Int := 104

/-- Response code `RESP_EMAG_ON`. -/
def RESP_EMAG_ON : Int := 105

/-- Response code `RESP_EMAG_OFF`. -/
def RESP_EMAG_OFF : Int := 106

/-- The three pipette state globals of the sketch: `pipetteIsHomed`,
`pipettePosition` (mm) and `pipetteVolume` (µL). -/
structure PipetteState where
  pipetteIsHomed : Bool
  pipettePosition : ℚ
  pipetteVolume : ℚ
  deriving DecidableEq, Repr

/-- Initial values of the globals at firmware start:
`pipetteIsHomed = false`, `pipettePosition = 0.0`, `pipetteVolume = 0.0`. -/
def pipetteInit : PipetteState := ⟨false, 0, 0⟩

/-- Result of one pipette handler: the `bool` it returns, the successor
global state, the serial lines it printed, and the absolute step targets it
handed to `pipetteStepper.moveTo`. -/
structure OpResult where
  ok : Bool
  state : PipetteState
  out : List String
  cmds : List Int
  deriving DecidableEq, Repr

/-- C cast of a float to `long`: truncation toward zero. -/
def floatToLong (q : ℚ) : Int :=
  if q < 0 then -⌊-q⌋ else ⌊q⌋

/-- Function `sendResponse(code, success)`: prints `OK:<code>` or `ERR:<code>`. -/
def sendResponse (code : Int) (success : Bool) : String :=
  (if success then "OK:" else "ERR:") ++ toString code

/-- Handler `movePipetteToPosition(float position)`: fails when not homed, fails
when the target is out of `[0, PIPETTE_MAX_POSITION]`, otherwise converts
mm to steps, commands the stepper to the absolute target, blocks until
settled, and records `pipettePosition = position`. -/
def movePipetteToPosition (s : PipetteState) (position : ℚ) : OpResult :=
  if s.pipetteIsHomed = false then
    ⟨false, s, ["ERROR: Pipette not homed"], []⟩
  else if position < 0 ∨ position > PIPETTE_MAX_POSITION then
    ⟨false, s, ["ERROR: Position out of bounds"], []⟩
  else
    ⟨true, ⟨s.pipetteIsHomed, position, s.pipetteVolume⟩, [],
      [floatToLong (position * PIPETTE_STEPS_PER_MM)]⟩

/-- Handler `aspiratePipette(float volume)`: fails when not homed; computes
`targetPosition = pipettePosition + volume / 10.0`; fails when that exceeds
`PIPETTE_MAX_POSITION`; otherwise delegates to `movePipetteToPosition` and,
only on its success, adds `volume` to `pipetteVolume`. -/
def aspiratePipette (s : PipetteState) (volume : ℚ) : OpResult :=
  if s.pipetteIsHomed = false then
    ⟨false, s, ["ERROR: Pipette not homed"], []⟩
  else
    let targetPosition := s.pipettePosition + volume / 10
    if targetPosition > PIPETTE_MAX_POSITION then
      ⟨false, s, ["ERROR: Requested volume exceeds pipette capacity"], []⟩
    else
      let r := movePipetteToPosition s targetPosition
      if r.ok = true then
        ⟨true, ⟨r.state.pipetteIsHomed, r.state.pipettePosition,
          r.state.pipetteVolume + volume⟩, r.out, r.cmds⟩
      else
        ⟨false, r.state, r.out, r.cmds⟩

/-- Handler `dispensePipette(float volume)`: fails when not homed; fails when
`volume > pipetteVolume`; computes
`targetPosition = pipettePosition - volume / 10.0`; fails when that is
negative; otherwise delegates to `movePipetteToPosition` and, only on its
success, subtracts `volume` from `pipetteVolume`. -/
def dispensePipette (s : PipetteState) (volume : ℚ) : OpResult :=
  if s.pipetteIsHomed = false then
    ⟨false, s, ["ERROR: Pipette not homed"], []⟩
  else if volume > s.pipetteVolume then
    ⟨false, s, ["ERROR: Not enough volume in pipette"], []⟩
  else
    let targetPosition := s.pipettePosition - volume / 10
    if targetPosition < 0 then
      ⟨false, s, ["ERROR: Dispense would exceed minimum position"], []⟩
    else
      let r := movePipetteToPosition s targetPosition
      if r.ok = true then
        ⟨true, ⟨r.state.pipetteIsHomed, r.state.pipettePosition,
          r.state.pipetteVolume - volume⟩, r.out, r.cmds⟩
      else
        ⟨false, r.state, r.out, r.cmds⟩

/-- Handler `homePipette()`: after the physical homing loops (interaction with the
limit switch and stepper only, no pipette state variables touched), zeroes
the stepper position, sets `pipettePosition = 0.0`, `pipetteVolume = 0.0`,
`pipetteIsHomed = true`, moves to the safe offset 0.5 mm through
`movePipetteToPosition`, and sends `OK:109`.  The incoming state is wholly
overwritten. -/
def homePipette (s : PipetteState) : PipetteState × List String :=
  let s1 : PipetteState := ⟨true, 0, 0⟩
  let r := movePipetteToPosition s1 (1 / 2)
  (r.state, "Homing pipette..." :: (r.out ++ [sendResponse RESP_PIPETTE_HOMED true]))

/-- Integer part printed by Arduino `Print::printFloat` for two digits:
the rounding term 0.005 is added first. -/
def ipart (q : ℚ) : Int := ⌊q + 1 / 200⌋

/-- Remainder scaled by 10 before the first fraction digit is extracted. -/
def frac1 (q : ℚ) : ℚ := (q + 1 / 200 - (ipart q : ℚ)) * 10

/-- First fraction digit of `Print::printFloat`. -/
def digit1 (q : ℚ) : Int := ⌊frac1 q⌋

/-- Remainder scaled by 10 before the second fraction digit is extracted. -/
def frac2 (q : ℚ) : ℚ := (frac1 q - (digit1 q : ℚ)) * 10

/-- Second fraction digit of `Print::printFloat`. -/
def digit2 (q : ℚ) : Int := ⌊frac2 q⌋

/-- Arduino `Print::printFloat` for a nonnegative value and two digits:
adds the rounding term 0.005, prints the integer part, the decimal point,
then extracts two fraction digits by repeated multiplication by 10. -/
def printFloat2Abs (q : ℚ) : String :=
  toString (ipart q) ++ "." ++ toString (digit1 q) ++ toString (digit2 q)

/-- Model of `Serial.print(float, 2)`: sign handling then `printFloat2Abs`. -/
def printFloat2 (q : ℚ) : String :=
  if q < 0 then "-" ++ printFloat2Abs (-q) else printFloat2Abs q

/-- Handler `getPipetteStatus()`: prints
`STATUS:<homed 0|1>,<position, 2 digits>,<volume, 2 digits>` and then
`OK:113`. -/
def getPipetteStatus (s : PipetteState) : List String :=
  [ "STATUS:" ++ (if s.pipetteIsHomed then "1," else "0,")
      ++ printFloat2 s.pipettePosition ++ "," ++ printFloat2 s.pipetteVolume,
    sendResponse RESP_PIPETTE_STATUS true ]

/-- Hardware readings consumed by the non-pipette handlers: the outcome of
each verification read-back, the beam sensor level (true = LOW = broken),
the ten sensor reads of `lineBreakTest`, and the `lastState` global. -/
structure Env where
  contactOnOk : Bool
  contactOffOk : Bool
  emagOnOk : Bool
  emagOffOk : Bool
  sensorLow : Bool
  testReads : List Bool
  lastState : Bool
  deriving DecidableEq, Repr

/-- Handler `lineBreakTest()`: for each read prints the beam state line, and a
transition code (`107` on becoming broken/LOW, `108` on becoming clear)
whenever the state differs from the previous one. -/
def lineBreakTest (reads : List Bool) (last : Bool) : List String :=
  match reads with
  | [] => []
  | r :: rs =>
      (if r then ["beam roken"] else ["beam unbroken"])
        ++ (if r ≠ last then [if r then "107" else "108"] else [])
        ++ lineBreakTest rs r

/-- One dispatch of the `switch` in `loop()`: given the hardware readings,
the pipette state, the parsed integer command and the parsed float payload
(read only by commands 10, 11, 12), returns the successor pipette state and
the serial lines emitted.  Non-pipette handlers never touch `PipetteState`;
the `default` arm prints `-1`. -/
def loopStep (env : Env) (s : PipetteState) (command : Int) (payload : ℚ) :
    PipetteState × List String :=
  if command = 1 then (s, [sendResponse RESP_WHITE_ON true])
  else if command = 2 then (s, [sendResponse RESP_WHITE_OFF true])
  else if command = 3 then (s, [sendResponse RESP_CONTACT_ON env.contactOnOk])
  else if command = 4 then (s, [sendResponse RESP_CONTACT_OFF env.contactOffOk])
  else if command = 5 then (s, [sendResponse RESP_EMAG_ON env.emagOnOk])
  else if command = 6 then (s, [sendResponse RESP_EMAG_OFF env.emagOffOk])
  else if command = 7 then (s, [if env.sensorLow then "107" else "108"])
  else if command = 8 then (s, lineBreakTest env.testReads env.lastState)
  else if command = 9 then homePipette s
  else if command = 10 then
    let r := movePipetteToPosition s payload
    (r.state, r.out ++ [sendResponse RESP_PIPETTE_MOVED r.ok])
  else if command = 11 then
    let r := aspiratePipette s payload
    (r.state, r.out ++ [sendResponse RESP_PIPETTE_ASPIRATED r.ok])
  else if command = 12 then
    let r := dispensePipette s payload
    (r.state, r.out ++ [sendResponse RESP_PIPETTE_DISPENSED r.ok])
  else if command = 13 then (s, getPipetteStatus s)
  else if command = 99 then (s, ["999"])
  else (s, ["-1"])

/-- The command codes of the `switch` in `loop()`. -/
def knownCodes : List Int := [1, 2, 3, 4, 5, 6, 7, 8, 9, 10, 11, 12, 13, 99]

/-- A fixed environment used for concrete runs. -/
def env0 : Env := ⟨true, true, true, true, false, [], false⟩

/-- States of the pipette globals reachable from the initial state by any
sequence of dispatched commands with arbitrary float payloads. -/
inductive Reachable : PipetteState → Prop
  | init : Reachable pipetteInit
  | step (env : Env) (c : Int) (p : ℚ) {s : PipetteState} :
      Reachable s → Reachable (loopStep env s c p).fst

/-- States reachable when every float payload handed to the dispatcher is
nonnegative. -/
inductive ReachableNN : PipetteState → Prop
  | init : ReachableNN pipetteInit
  | step (env : Env) (c : Int) (p : ℚ) {s : PipetteState} :
      ReachableNN s → 0 ≤ p → ReachableNN (loopStep env s c p).fst

/-! ### Characterization lemmas for the pipette handlers -/

theorem move_not_homed (s : PipetteState) (t : ℚ) (h : s.pipetteIsHomed = false) :
    movePipetteToPosition s t = ⟨false, s, ["ERROR: Pipette not homed"], []⟩ := by
  simp [movePipetteToPosition, h]

theorem move_out_of_bounds (s : PipetteState) (t : ℚ) (h : s.pipetteIsHomed = true)
    (hb : t < 0 ∨ t > PIPETTE_MAX_POSITION) :
    movePipetteToPosition s t = ⟨false, s, ["ERROR: Position out of bounds"], []⟩ := by
  rw [movePipetteToPosition, if_neg (by simp [h]), if_pos hb]

theorem move_in_bounds (s : PipetteState) (t : ℚ) (h : s.pipetteIsHomed = true)
    (h0 : 0 ≤ t) (h1 : t ≤ PIPETTE_MAX_POSITION) :
    movePipetteToPosition s t =
      ⟨true, ⟨s.pipetteIsHomed, t, s.pipetteVolume⟩, [],
        [floatToLong (t * PIPETTE_STEPS_PER_MM)]⟩ := by
  rw [movePipetteToPosition, if_neg (by simp [h]), if_neg (by push_neg; exact ⟨h0, h1⟩)]

theorem move_ok_iff (s : PipetteState) (t : ℚ) :
    (movePipetteToPosition s t).ok = true ↔
      s.pipetteIsHomed = true ∧ 0 ≤ t ∧ t ≤ PIPETTE_MAX_POSITION := by
  unfold movePipetteToPosition
  split_ifs with h1 h2
  · simp [h1]
  · rcases h2 with h2 | h2 <;> constructor <;> intro hc <;> simp_all <;> linarith [hc.2.1, hc.2.2]
  · push_neg at h2
    simp only [Bool.not_eq_false] at h1
    simp [h1, h2.1, h2.2]

theorem move_ok_state (s : PipetteState) (t : ℚ)
    (h : (movePipetteToPosition s t).ok = true) :
    (movePipetteToPosition s t).state = ⟨s.pipetteIsHomed, t, s.pipetteVolume⟩ := by
  unfold movePipetteToPosition at h ⊢
  split_ifs at h ⊢ <;> simp_all

theorem move_fail_state (s : PipetteState) (t : ℚ)
    (h : (movePipetteToPosition s t).ok = false) :
    (movePipetteToPosition s t).state = s ∧ (movePipetteToPosition s t).cmds = [] := by
  unfold movePipetteToPosition at h ⊢
  split_ifs at h ⊢ <;> simp_all

theorem move_pipetteIsHomed (s : PipetteState) (t : ℚ) :
    (movePipetteToPosition s t).state.pipetteIsHomed = s.pipetteIsHomed := by
  unfold movePipetteToPosition
  split_ifs <;> rfl

theorem move_pipetteVolume (s : PipetteState) (t : ℚ) :
    (movePipetteToPosition s t).state.pipetteVolume = s.pipetteVolume := by
  unfold movePipetteToPosition
  split_ifs <;> rfl

theorem aspirate_not_homed (s : PipetteState) (v : ℚ) (h : s.pipetteIsHomed = false) :
    aspiratePipette s v = ⟨false, s, ["ERROR: Pipette not homed"], []⟩ := by
  simp [aspiratePipette, h]

theorem aspirate_capacity (s : PipetteState) (v : ℚ) (h1 : s.pipetteIsHomed = true)
    (h2 : PIPETTE_MAX_POSITION < s.pipettePosition + v / 10) :
    aspiratePipette s v =
      ⟨false, s, ["ERROR: Requested volume exceeds pipette capacity"], []⟩ := by
  simp [aspiratePipette, h1, h2]

theorem aspirate_below_min (s : PipetteState) (v : ℚ) (h1 : s.pipetteIsHomed = true)
    (h2 : s.pipettePosition + v / 10 ≤ PIPETTE_MAX_POSITION)
    (h3 : s.pipettePosition + v / 10 < 0) :
    aspiratePipette s v = ⟨false, s, ["ERROR: Position out of bounds"], []⟩ := by
  have hm := move_out_of_bounds s (s.pipettePosition + v / 10) h1 (Or.inl h3)
  simp [aspiratePipette, h1, not_lt.mpr h2, hm]

theorem aspirate_success (s : PipetteState) (v : ℚ) (h1 : s.pipetteIsHomed = true)
    (h2 : s.pipettePosition + v / 10 ≤ PIPETTE_MAX_POSITION)
    (h3 : 0 ≤ s.pipettePosition + v / 10) :
    aspiratePipette s v =
      ⟨true, ⟨s.pipetteIsHomed, s.pipettePosition + v / 10, s.pipetteVolume + v⟩, [],
        [floatToLong ((s.pipettePosition + v / 10) * PIPETTE_STEPS_PER_MM)]⟩ := by
  have hm := move_in_bounds s (s.pipettePosition + v / 10) h1 h3 h2
  simp [aspiratePipette, h1, not_lt.mpr h2, hm]

theorem aspirate_ok_iff (s : PipetteState) (v : ℚ) :
    (aspiratePipette s v).ok = true ↔
      s.pipetteIsHomed = true ∧ s.pipettePosition + v / 10 ≤ PIPETTE_MAX_POSITION
        ∧ 0 ≤ s.pipettePosition + v / 10 := by
  constructor
  · intro h
    cases hh : s.pipetteIsHomed
    · rw [aspirate_not_homed s v hh] at h
      exact absurd h (by simp)
    · rcases lt_or_le PIPETTE_MAX_POSITION (s.pipettePosition + v / 10) with hcap | hcap
      · rw [aspirate_capacity s v hh hcap] at h
        exact absurd h (by simp)
      · rcases lt_or_le (s.pipettePosition + v / 10) 0 with hneg | hneg
        · rw [aspirate_below_min s v hh hcap hneg] at h
          exact absurd h (by simp)
        · exact ⟨rfl, hcap, hneg⟩
  · rintro ⟨h1, h2, h3⟩
    rw [aspirate_success s v h1 h2 h3]

theorem aspirate_ok_state (s : PipetteState) (v : ℚ)
    (h : (aspiratePipette s v).ok = true) :
    (aspiratePipette s v).state =
      ⟨s.pipetteIsHomed, s.pipettePosition + v / 10, s.pipetteVolume + v⟩ := by
  obtain ⟨h1, h2, h3⟩ := (aspirate_ok_iff s v).mp h
  rw [aspirate_success s v h1 h2 h3]

theorem aspirate_fail_state (s : PipetteState) (v : ℚ)
    (h : (aspiratePipette s v).ok = false) :
    (aspiratePipette s v).state = s ∧ (aspiratePipette s v).cmds = [] := by
  cases hh : s.pipetteIsHomed
  · rw [aspirate_not_homed s v hh]
    exact ⟨rfl, rfl⟩
  · rcases lt_or_le PIPETTE_MAX_POSITION (s.pipettePosition + v / 10) with hcap | hcap
    · rw [aspirate_capacity s v hh hcap]
      exact ⟨rfl, rfl⟩
    · rcases lt_or_le (s.pipettePosition + v / 10) 0 with hneg | hneg
      · rw [aspirate_below_min s v hh hcap hneg]
        exact ⟨rfl, rfl⟩
      · rw [aspirate_success s v hh hcap hneg] at h
        exact absurd h (by simp)

theorem aspirate_pipetteIsHomed (s : PipetteState) (v : ℚ) :
    (aspiratePipette s v).state.pipetteIsHomed = s.pipetteIsHomed := by
  cases hok : (aspiratePipette s v).ok
  · rw [(aspirate_fail_state s v hok).1]
  · rw [aspirate_ok_state s v hok]

theorem dispense_not_homed (s : PipetteState) (v : ℚ) (h : s.pipetteIsHomed = false) :
    dispensePipette s v = ⟨false, s, ["ERROR: Pipette not homed"], []⟩ := by
  simp [dispensePipette, h]

theorem dispense_insufficient (s : PipetteState) (v : ℚ) (h1 : s.pipetteIsHomed = true)
    (h2 : s.pipetteVolume < v) :
    dispensePipette s v = ⟨false, s, ["ERROR: Not enough volume in pipette"], []⟩ := by
  simp [dispensePipette, h1, h2]

theorem dispense_below_min (s : PipetteState) (v : ℚ) (h1 : s.pipetteIsHomed = true)
    (h2 : v ≤ s.pipetteVolume) (h3 : s.pipettePosition - v / 10 < 0) :
    dispensePipette s v =
      ⟨false, s, ["ERROR: Dispense would exceed minimum position"], []⟩ := by
  simp [dispensePipette, h1, not_lt.mpr h2, h3]

theorem dispense_over_max (s : PipetteState) (v : ℚ) (h1 : s.pipetteIsHomed = true)
    (h2 : v ≤ s.pipetteVolume) (h3 : 0 ≤ s.pipettePosition - v / 10)
    (h4 : PIPETTE_MAX_POSITION < s.pipettePosition - v / 10) :
    dispensePipette s v = ⟨false, s, ["ERROR: Position out of bounds"], []⟩ := by
  have hm := move_out_of_bounds s (s.pipettePosition - v / 10) h1 (Or.inr h4)
  simp [dispensePipette, h1, not_lt.mpr h2, not_lt.mpr h3, hm]

theorem dispense_success (s : PipetteState) (v : ℚ) (h1 : s.pipetteIsHomed = true)
    (h2 : v ≤ s.pipetteVolume) (h3 : 0 ≤ s.pipettePosition - v / 10)
    (h4 : s.pipettePosition - v / 10 ≤ PIPETTE_MAX_POSITION) :
    dispensePipette s v =
      ⟨true, ⟨s.pipetteIsHomed, s.pipettePosition - v / 10, s.pipetteVolume - v⟩, [],
        [floatToLong ((s.pipettePosition - v / 10) * PIPETTE_STEPS_PER_MM)]⟩ := by
  have hm := move_in_bounds s (s.pipettePosition - v / 10) h1 h3 h4
  simp [dispensePipette, h1, not_lt.mpr h2, not_lt.mpr h3, hm]

theorem dispense_ok_iff (s : PipetteState) (v : ℚ) :
    (dispensePipette s v).ok = true ↔
      s.pipetteIsHomed = true ∧ v ≤ s.pipetteVolume
        ∧ 0 ≤ s.pipettePosition - v / 10
        ∧ s.pipettePosition - v / 10 ≤ PIPETTE_MAX_POSITION := by
  constructor
  · intro h
    cases hh : s.pipetteIsHomed
    · rw [dispense_not_homed s v hh] at h
      exact absurd h (by simp)
    · rcases lt_or_le s.pipetteVolume v with hv | hv
      · rw [dispense_insufficient s v hh hv] at h
        exact absurd h (by simp)
      · rcases lt_or_le (s.pipettePosition - v / 10) 0 with hneg | hneg
        · rw [dispense_below_min s v hh hv hneg] at h
          exact absurd h (by simp)
        · rcases lt_or_le PIPETTE_MAX_POSITION (s.pipettePosition - v / 10) with hmax | hmax
          · rw [dispense_over_max s v hh hv hneg hmax] at h
            exact absurd h (by simp)
          · exact ⟨rfl, hv, hneg, hmax⟩
  · rintro ⟨h1, h2, h3, h4⟩
    rw [dispense_success s v h1 h2 h3 h4]

theorem dispense_ok_state (s : PipetteState) (v : ℚ)
    (h : (dispensePipette s v).ok = true) :
    (dispensePipette s v).state =
      ⟨s.pipetteIsHomed, s.pipettePosition - v / 10, s.pipetteVolume - v⟩ := by
  obtain ⟨h1, h2, h3, h4⟩ := (dispense_ok_iff s v).mp h
  rw [dispense_success s v h1 h2 h3 h4]

theorem dispense_fail_state (s : PipetteState) (v : ℚ)
    (h : (dispensePipette s v).ok = false) :
    (dispensePipette s v).state = s ∧ (dispensePipette s v).cmds = [] := by
  cases hh : s.pipetteIsHomed
  · rw [dispense_not_homed s v hh]
    exact ⟨rfl, rfl⟩
  · rcases lt_or_le s.pipetteVolume v with hv | hv
    · rw [dispense_insufficient s v hh hv]
      exact ⟨rfl, rfl⟩
    · rcases lt_or_le (s.pipettePosition - v / 10) 0 with hneg | hneg
      · rw [dispense_below_min s v hh hv hneg]
        exact ⟨rfl, rfl⟩
      · rcases lt_or_le PIPETTE_MAX_POSITION (s.pipettePosition - v / 10) with hmax | hmax
        · rw [dispense_over_max s v hh hv hneg hmax]
          exact ⟨rfl, rfl⟩
        · rw [dispense_success s v hh hv hneg hmax] at h
          exact absurd h (by simp)

theorem dispense_pipetteIsHomed (s : PipetteState) (v : ℚ) :
    (dispensePipette s v).state.pipetteIsHomed = s.pipetteIsHomed := by
  cases hok : (dispensePipette s v).ok
  · rw [(dispense_fail_state s v hok).1]
  · rw [dispense_ok_state s v hok]

theorem homePipette_eq (s : PipetteState) :
    homePipette s = (⟨true, 1 / 2, 0⟩, ["Homing pipette...", "OK:109"]) := by
  have hm := move_in_bounds ⟨true, 0, 0⟩ (1 / 2) rfl (by norm_num)
    (by norm_num [PIPETTE_MAX_POSITION])
  simp only [homePipette]
  rw [hm]
  exact congrArg₂ Prod.mk rfl (by decide)


/-! ### Value lemmas for the status formatting -/

theorem printFloat2Abs_half : printFloat2Abs (1 / 2) = "0.50" := by
  have h0 : ipart (1 / 2) = 0 := by norm_num [ipart]
  have h1 : frac1 (1 / 2) = 101 / 20 := by norm_num [frac1, h0]
  have h2 : digit1 (1 / 2) = 5 := by norm_num [digit1, h1]
  have h3 : frac2 (1 / 2) = 1 / 2 := by norm_num [frac2, h1, h2]
  have h4 : digit2 (1 / 2) = 0 := by norm_num [digit2, h3]
  rw [printFloat2Abs, h0, h2, h4]
  decide

theorem printFloat2Abs_zero : printFloat2Abs 0 = "0.00" := by
  have h0 : ipart 0 = 0 := by norm_num [ipart]
  have h1 : frac1 0 = 1 / 20 := by norm_num [frac1, h0]
  have h2 : digit1 0 = 0 := by norm_num [digit1, h1]
  have h3 : frac2 0 = 1 / 2 := by norm_num [frac2, h1, h2]
  have h4 : digit2 0 = 0 := by norm_num [digit2, h3]
  rw [printFloat2Abs, h0, h2, h4]
  decide

theorem printFloat2_half : printFloat2 (1 / 2) = "0.50" := by
  rw [printFloat2, if_neg (by norm_num)]
  exact printFloat2Abs_half

theorem printFloat2_zero : printFloat2 0 = "0.00" := by
  rw [printFloat2, if_neg (by norm_num)]
  exact printFloat2Abs_zero

theorem getPipetteStatus_home :
    getPipetteStatus ⟨true, 1 / 2, 0⟩ = ["STATUS:1,0.50,0.00", "OK:113"] := by
  simp only [getPipetteStatus]
  rw [printFloat2_half, printFloat2_zero]
  decide

/-! ### Dispatcher lemmas -/

theorem loopStep_home_eq (env : Env) (s : PipetteState) (p : ℚ) :
    loopStep env s 9 p = homePipette s := by
  simp only [loopStep]
  norm_num

theorem loopStep_status_eq (env : Env) (s : PipetteState) (p : ℚ) :
    loopStep env s 13 p = (s, getPipetteStatus s) := by
  simp only [loopStep]
  norm_num

theorem loopStep_fst (env : Env) (s : PipetteState) (c : Int) (p : ℚ) :
    (loopStep env s c p).fst =
      if c = 9 then ⟨true, 1 / 2, 0⟩
      else if c = 10 then (movePipetteToPosition s p).state
      else if c = 11 then (aspiratePipette s p).state
      else if c = 12 then (dispensePipette s p).state
      else s := by
  rcases eq_or_ne c 1 with h | h1
  · subst h; rfl
  rcases eq_or_ne c 2 with h | h2
  · subst h; rfl
  rcases eq_or_ne c 3 with h | h3
  · subst h; rfl
  rcases eq_or_ne c 4 with h | h4
  · subst h; rfl
  rcases eq_or_ne c 5 with h | h5
  · subst h; rfl
  rcases eq_or_ne c 6 with h | h6
  · subst h; rfl
  rcases eq_or_ne c 7 with h | h7
  · subst h; rfl
  rcases eq_or_ne c 8 with h | h8
  · subst h; rfl
  rcases eq_or_ne c 9 with h | h9
  · subst h
    rw [loopStep_home_eq, homePipette_eq]
    rfl
  rcases eq_or_ne c 10 with h | h10
  · subst h; rfl
  rcases eq_or_ne c 11 with h | h11
  · subst h; rfl
  rcases eq_or_ne c 12 with h | h12
  · subst h; rfl
  rcases eq_or_ne c 13 with h | h13
  · subst h; rfl
  rcases eq_or_ne c 99 with h | h99
  · subst h; rfl
  simp only [loopStep]
  rw [if_neg h1, if_neg h2, if_neg h3, if_neg h4, if_neg h5, if_neg h6, if_neg h7,
    if_neg h8, if_neg h9, if_neg h10, if_neg h11, if_neg h12, if_neg h13, if_neg h99,
    if_neg h9, if_neg h10, if_neg h11, if_neg h12]


/-! ### Invariant step lemmas -/

theorem loopStep_isHomed (env : Env) (s : PipetteState) (c : Int) (p : ℚ) :
    (loopStep env s c p).fst.pipetteIsHomed =
      (if c = 9 then true else s.pipetteIsHomed) := by
  rw [loopStep_fst]
  split_ifs with h9 h10 h11 h12
  · rfl
  · exact move_pipetteIsHomed s p
  · exact aspirate_pipetteIsHomed s p
  · exact dispense_pipetteIsHomed s p
  · rfl

theorem loopStep_volume_step (env : Env) (s : PipetteState) (c : Int) (p : ℚ)
    (hv : 0 ≤ s.pipetteVolume) (hp : 0 ≤ p) :
    0 ≤ (loopStep env s c p).fst.pipetteVolume := by
  rw [loopStep_fst]
  split_ifs with h9 h10 h11 h12
  · norm_num
  · rw [move_pipetteVolume]
    exact hv
  · cases hok : (aspiratePipette s p).ok
    · rw [(aspirate_fail_state s p hok).1]
      exact hv
    · rw [aspirate_ok_state s p hok]
      exact add_nonneg hv hp
  · cases hok : (dispensePipette s p).ok
    · rw [(dispense_fail_state s p hok).1]
      exact hv
    · rw [dispense_ok_state s p hok]
      exact sub_nonneg.mpr ((dispense_ok_iff s p).mp hok).2.1
  · exact hv

theorem loopStep_bounds_step (env : Env) (s : PipetteState) (c : Int) (p : ℚ)
    (hb : s.pipetteIsHomed = true →
      0 ≤ s.pipettePosition ∧ s.pipettePosition ≤ PIPETTE_MAX_POSITION) :
    (loopStep env s c p).fst.pipetteIsHomed = true →
      0 ≤ (loopStep env s c p).fst.pipettePosition ∧
        (loopStep env s c p).fst.pipettePosition ≤ PIPETTE_MAX_POSITION := by
  rw [loopStep_fst]
  split_ifs with h9 h10 h11 h12
  · intro hju
    constructor <;> norm_num [PIPETTE_MAX_POSITION]
  · cases hok : (movePipetteToPosition s p).ok
    · rw [(move_fail_state s p hok).1]
      exact hb
    · rw [move_ok_state s p hok]
      intro hju
      exact ⟨((move_ok_iff s p).mp hok).2.1, ((move_ok_iff s p).mp hok).2.2⟩
  · cases hok : (aspiratePipette s p).ok
    · rw [(aspirate_fail_state s p hok).1]
      exact hb
    · rw [aspirate_ok_state s p hok]
      intro hju
      exact ⟨((aspirate_ok_iff s p).mp hok).2.2, ((aspirate_ok_iff s p).mp hok).2.1⟩
  · cases hok : (dispensePipette s p).ok
    · rw [(dispense_fail_state s p hok).1]
      exact hb
    · rw [dispense_ok_state s p hok]
      intro hju
      exact ⟨((dispense_ok_iff s p).mp hok).2.2.1, ((dispense_ok_iff s p).mp hok).2.2.2⟩
  · exact hb

/-! ### The claims -/

/-- Claim C1: with the pipette homed, `movePipetteToPosition` fails with no
motion command and no state change when the target lies outside
`[0, PIPETTE_MAX_POSITION]`, and otherwise succeeds and sets
`pipettePosition` exactly to the target while leaving `pipetteVolume`
untouched; in particular a move to the current (in-range) position succeeds
and changes nothing. -/
theorem claim_C1_move (s : PipetteState) (t : ℚ) (hh : s.pipetteIsHomed = true) :
    ((t < 0 ∨ t > PIPETTE_MAX_POSITION) →
      (movePipetteToPosition s t).ok = false ∧ (movePipetteToPosition s t).state = s ∧
        (movePipetteToPosition s t).cmds = [])
    ∧ (0 ≤ t → t ≤ PIPETTE_MAX_POSITION →
      (movePipetteToPosition s t).ok = true ∧
        (movePipetteToPosition s t).state.pipettePosition = t ∧
        (movePipetteToPosition s t).state.pipetteVolume = s.pipetteVolume)
    ∧ (0 ≤ s.pipettePosition → s.pipettePosition ≤ PIPETTE_MAX_POSITION →
      (movePipetteToPosition s s.pipettePosition).ok = true ∧
        (movePipetteToPosition s s.pipettePosition).state = s) := by
  refine ⟨?_, ?_, ?_⟩
  · intro hb
    rw [move_out_of_bounds s t hh hb]
    exact ⟨rfl, rfl, rfl⟩
  · intro h0 h1
    rw [move_in_bounds s t hh h0 h1]
    exact ⟨rfl, rfl, rfl⟩
  · intro h0 h1
    rw [move_in_bounds s s.pipettePosition hh h0 h1]
    exact ⟨rfl, rfl⟩

/-- Witness for C1 at the homed state (0.5 mm, 0 µL): a move to 101 mm
fails and a move to 3 mm succeeds with the position updated to 3. -/
theorem claim_C1_witness :
    (movePipetteToPosition ⟨true, 1 / 2, 0⟩ 101).ok = false
    ∧ (movePipetteToPosition ⟨true, 1 / 2, 0⟩ 3).ok = true
    ∧ (movePipetteToPosition ⟨true, 1 / 2, 0⟩ 3).state.pipettePosition = 3 := by
  refine ⟨((claim_C1_move ⟨true, 1 / 2, 0⟩ 101 rfl).1
    (Or.inr (by norm_num [PIPETTE_MAX_POSITION]))).1, ?_, ?_⟩
  · exact ((claim_C1_move ⟨true, 1 / 2, 0⟩ 3 rfl).2.1 (by norm_num)
      (by norm_num [PIPETTE_MAX_POSITION])).1
  · exact ((claim_C1_move ⟨true, 1 / 2, 0⟩ 3 rfl).2.1 (by norm_num)
      (by norm_num [PIPETTE_MAX_POSITION])).2.1

/-- Counterexample to C2 as stated: at the homed state (0.5 mm, 0 µL)
produced by homing, `aspiratePipette (-60)` fails even though the pipette
is homed and positionMm + (-60)/10 = -5.5 does not exceed
MAX_POSITION_MM — the inner move rejects the negative target, a failure
case the claimed "if and only if" omits. -/
theorem claim_C2_counterexample :
    (aspiratePipette ⟨true, 1 / 2, 0⟩ (-60)).ok = false
    ∧ (⟨true, 1 / 2, 0⟩ : PipetteState).pipetteIsHomed = true
    ∧ ¬ ((⟨true, 1 / 2, 0⟩ : PipetteState).pipettePosition + (-60) / 10 >
          PIPETTE_MAX_POSITION) := by
  have h := aspirate_below_min ⟨true, 1 / 2, 0⟩ (-60) rfl
    (by norm_num [PIPETTE_MAX_POSITION]) (by norm_num)
  exact ⟨by rw [h], rfl, by norm_num [PIPETTE_MAX_POSITION]⟩

/-- Claim C2 (amended): `aspiratePipette v` fails exactly when the pipette
is not homed, or `pipettePosition + v/10` exceeds `PIPETTE_MAX_POSITION`,
or `pipettePosition + v/10` is negative (the inner move's lower bound,
reachable only with a negative volume argument); on success the position
grows by `v/10` and the volume by exactly `v`, and on failure the state is
unchanged and no motion is commanded. -/
theorem claim_C2_aspirate (s : PipetteState) (v : ℚ) :
    ((aspiratePipette s v).ok = false ↔
      s.pipetteIsHomed = false ∨ PIPETTE_MAX_POSITION < s.pipettePosition + v / 10
        ∨ s.pipettePosition + v / 10 < 0)
    ∧ ((aspiratePipette s v).ok = true →
      (aspiratePipette s v).state.pipettePosition = s.pipettePosition + v / 10
        ∧ (aspiratePipette s v).state.pipetteVolume = s.pipetteVolume + v)
    ∧ ((aspiratePipette s v).ok = false →
      (aspiratePipette s v).state = s ∧ (aspiratePipette s v).cmds = []) := by
  refine ⟨⟨?_, ?_⟩, ?_, aspirate_fail_state s v⟩
  · intro hfalse
    cases hh : s.pipetteIsHomed
    · exact Or.inl rfl
    · rcases lt_or_le PIPETTE_MAX_POSITION (s.pipettePosition + v / 10) with hcap | hcap
      · exact Or.inr (Or.inl hcap)
      · rcases lt_or_le (s.pipettePosition + v / 10) 0 with hneg | hneg
        · exact Or.inr (Or.inr hneg)
        · rw [aspirate_success s v hh hcap hneg] at hfalse
          exact absurd hfalse (by simp)
  · intro hor
    cases hh : s.pipetteIsHomed
    · rw [aspirate_not_homed s v hh]
    · rcases hor with h | h | h
      · rw [hh] at h
        exact absurd h (by simp)
      · rw [aspirate_capacity s v hh h]
      · rcases lt_or_le PIPETTE_MAX_POSITION (s.pipettePosition + v / 10) with hcap | hcap
        · rw [aspirate_capacity s v hh hcap]
        · rw [aspirate_below_min s v hh hcap h]
  · intro hok
    rw [aspirate_ok_state s v hok]
    exact ⟨rfl, rfl⟩

/-- Witness for C2 (amended) at the homed state (0.5 mm, 0 µL):
aspirating 20 µL succeeds, moving to 2.5 mm and holding 20 µL. -/
theorem claim_C2_witness :
    (aspiratePipette ⟨true, 1 / 2, 0⟩ 20).ok = true
    ∧ (aspiratePipette ⟨true, 1 / 2, 0⟩ 20).state.pipettePosition = 5 / 2
    ∧ (aspiratePipette ⟨true, 1 / 2, 0⟩ 20).state.pipetteVolume = 20 := by
  have hok : (aspiratePipette ⟨true, 1 / 2, 0⟩ 20).ok = true := by
    rw [aspirate_success ⟨true, 1 / 2, 0⟩ 20 rfl
      (by norm_num [PIPETTE_MAX_POSITION]) (by norm_num)]
  have h := (claim_C2_aspirate ⟨true, 1 / 2, 0⟩ 20).2.1 hok
  refine ⟨hok, ?_, ?_⟩
  · rw [h.1]
    norm_num
  · rw [h.2]
    norm_num

/-- Counterexample to C3 as stated: at the homed state (100 mm, 0 µL) —
reachable by homing then moving to 100 — `dispensePipette (-10)` fails even
though the pipette is homed, -10 does not exceed the current volume 0, and
positionMm - (-10)/10 = 101 is not negative: the inner move rejects the
target 101 above MAX_POSITION_MM, a failure case the claimed
"if and only if" omits. -/
theorem claim_C3_counterexample :
    (dispensePipette ⟨true, 100, 0⟩ (-10)).ok = false
    ∧ (⟨true, 100, 0⟩ : PipetteState).pipetteIsHomed = true
    ∧ ¬ ((-10 : ℚ) > (⟨true, 100, 0⟩ : PipetteState).pipetteVolume)
    ∧ ¬ ((⟨true, 100, 0⟩ : PipetteState).pipettePosition - (-10) / 10 < 0) := by
  have h := dispense_over_max ⟨true, 100, 0⟩ (-10) rfl (by norm_num)
    (by norm_num) (by norm_num [PIPETTE_MAX_POSITION])
  exact ⟨by rw [h], rfl, by norm_num, by norm_num⟩

/-- Claim C3 (amended): `dispensePipette v` fails exactly when the pipette
is not homed, or `v` exceeds the current volume, or
`pipettePosition - v/10` is negative, or `pipettePosition - v/10` exceeds
`PIPETTE_MAX_POSITION` (the inner move's upper bound, reachable only with a
negative volume argument); on success the position shrinks by `v/10` and
the volume by exactly `v`, and on failure the state is unchanged and no
motion is commanded. -/
theorem claim_C3_dispense (s : PipetteState) (v : ℚ) :
    ((dispensePipette s v).ok = false ↔
      s.pipetteIsHomed = false ∨ s.pipetteVolume < v
        ∨ s.pipettePosition - v / 10 < 0
        ∨ PIPETTE_MAX_POSITION < s.pipettePosition - v / 10)
    ∧ ((dispensePipette s v).ok = true →
      (dispensePipette s v).state.pipettePosition = s.pipettePosition - v / 10
        ∧ (dispensePipette s v).state.pipetteVolume = s.pipetteVolume - v)
    ∧ ((dispensePipette s v).ok = false →
      (dispensePipette s v).state = s ∧ (dispensePipette s v).cmds = []) := by
  refine ⟨⟨?_, ?_⟩, ?_, dispense_fail_state s v⟩
  · intro hfalse
    cases hh : s.pipetteIsHomed
    · exact Or.inl rfl
    · rcases lt_or_le s.pipetteVolume v with hv | hv
      · exact Or.inr (Or.inl hv)
      · rcases lt_or_le (s.pipettePosition - v / 10) 0 with hneg | hneg
        · exact Or.inr (Or.inr (Or.inl hneg))
        · rcases lt_or_le PIPETTE_MAX_POSITION (s.pipettePosition - v / 10) with hmax | hmax
          · exact Or.inr (Or.inr (Or.inr hmax))
          · rw [dispense_success s v hh hv hneg hmax] at hfalse
            exact absurd hfalse (by simp)
  · intro hor
    cases hh : s.pipetteIsHomed
    · rw [dispense_not_homed s v hh]
    · rcases hor with h | h | h | h
      · rw [hh] at h
        exact absurd h (by simp)
      · rw [dispense_insufficient s v hh h]
      · rcases lt_or_le s.pipetteVolume v with hv | hv
        · rw [dispense_insufficient s v hh hv]
        · rw [dispense_below_min s v hh hv h]
      · rcases lt_or_le s.pipetteVolume v with hv | hv
        · rw [dispense_insufficient s v hh hv]
        · rcases lt_or_le (s.pipettePosition - v / 10) 0 with hneg | hneg
          · rw [dispense_below_min s v hh hv hneg]
          · rw [dispense_over_max s v hh hv hneg h]
  · intro hok
    rw [dispense_ok_state s v hok]
    exact ⟨rfl, rfl⟩

/-- Witness for C3 (amended) at the homed state (2.5 mm, 20 µL):
dispensing 20 µL succeeds, moving back to 0.5 mm and emptying the
pipette. -/
theorem claim_C3_witness :
    (dispensePipette ⟨true, 5 / 2, 20⟩ 20).ok = true
    ∧ (dispensePipette ⟨true, 5 / 2, 20⟩ 20).state.pipettePosition = 1 / 2
    ∧ (dispensePipette ⟨true, 5 / 2, 20⟩ 20).state.pipetteVolume = 0 := by
  have hok : (dispensePipette ⟨true, 5 / 2, 20⟩ 20).ok = true := by
    rw [dispense_success ⟨true, 5 / 2, 20⟩ 20 rfl (by norm_num) (by norm_num)
      (by norm_num [PIPETTE_MAX_POSITION])]
  have h := (claim_C3_dispense ⟨true, 5 / 2, 20⟩ 20).2.1 hok
  refine ⟨hok, ?_, ?_⟩
  · rw [h.1]
    norm_num
  · rw [h.2]
    norm_num


/-- Counterexample to C4 as stated: the reachable two-command run
home (command 9) then aspirate of -1 µL (command 11) drives
`pipetteVolume` to -1, below 0 — the invariant fails for arbitrary
(negative) float arguments. -/
theorem claim_C4_counterexample :
    Reachable ((loopStep env0 (loopStep env0 pipetteInit 9 0).fst 11 (-1)).fst)
    ∧ ((loopStep env0 (loopStep env0 pipetteInit 9 0).fst 11 (-1)).fst).pipetteVolume
        < 0 := by
  constructor
  · exact Reachable.step env0 11 (-1) (Reachable.step env0 9 0 Reachable.init)
  · have h9 : (loopStep env0 pipetteInit 9 0).fst = ⟨true, 1 / 2, 0⟩ := by
      rw [loopStep_home_eq, homePipette_eq]
    rw [h9]
    have h11 : (loopStep env0 (⟨true, 1 / 2, 0⟩ : PipetteState) 11 (-1)).fst =
        (aspiratePipette ⟨true, 1 / 2, 0⟩ (-1)).state := by
      rw [loopStep_fst]
      norm_num
    rw [h11, aspirate_success ⟨true, 1 / 2, 0⟩ (-1) rfl
      (by norm_num [PIPETTE_MAX_POSITION]) (by norm_num)]
    norm_num

/-- Claim C4 (amended): in every state reachable from the initial state by
dispatched commands whose float payloads are all nonnegative,
`pipetteVolume` is at least 0. -/
theorem claim_C4_volume_nonneg (s : PipetteState) (h : ReachableNN s) :
    0 ≤ s.pipetteVolume := by
  induction h with
  | init => norm_num [pipetteInit]
  | step env c p hr hp ih => exact loopStep_volume_step env _ c p ih hp

/-- Witness for C4 (amended) at the state reached by a single home
command. -/
theorem claim_C4_witness :
    0 ≤ ((loopStep env0 pipetteInit 9 0).fst).pipetteVolume :=
  claim_C4_volume_nonneg _ (ReachableNN.step env0 9 0 ReachableNN.init (le_refl 0))

/-- Claim C5: in every reachable state (arbitrary float payloads) in which
the pipette is homed, `pipettePosition` lies within
`[0, PIPETTE_MAX_POSITION]`. -/
theorem claim_C5_position_bounds (s : PipetteState) (h : Reachable s)
    (hh : s.pipetteIsHomed = true) :
    0 ≤ s.pipettePosition ∧ s.pipettePosition ≤ PIPETTE_MAX_POSITION := by
  revert hh
  induction h with
  | init =>
      intro hinit
      exact absurd hinit (by norm_num [pipetteInit])
  | step env c p hr ih => exact loopStep_bounds_step env _ c p ih

/-- Witness for C5 at the homed state reached by a single home command. -/
theorem claim_C5_witness :
    0 ≤ ((loopStep env0 pipetteInit 9 0).fst).pipettePosition
    ∧ ((loopStep env0 pipetteInit 9 0).fst).pipettePosition ≤ PIPETTE_MAX_POSITION :=
  claim_C5_position_bounds _ (Reachable.step env0 9 0 Reachable.init)
    (by rw [loopStep_home_eq, homePipette_eq])

/-- Claim C6: from any state and environment, dispatching the home command
(code 9) yields the state (homed, 0.5 mm, 0 µL), printing the homing
banner and then `OK:109`; dispatching a status query (code 13) right after
prints `STATUS:1,0.50,0.00` followed by `OK:113` and leaves the state
untouched. -/
theorem claim_C6_home_then_status (env env2 : Env) (s : PipetteState) (p q : ℚ) :
    (loopStep env s 9 p).fst = ⟨true, 1 / 2, 0⟩
    ∧ (loopStep env s 9 p).snd = ["Homing pipette...", "OK:109"]
    ∧ (loopStep env2 (loopStep env s 9 p).fst 13 q).snd =
        ["STATUS:1,0.50,0.00", "OK:113"]
    ∧ (loopStep env2 (loopStep env s 9 p).fst 13 q).fst = (loopStep env s 9 p).fst := by
  have h9 : loopStep env s 9 p =
      (⟨true, 1 / 2, 0⟩, ["Homing pipette...", "OK:109"]) := by
    rw [loopStep_home_eq, homePipette_eq]
  have hfst : (loopStep env s 9 p).fst = ⟨true, 1 / 2, 0⟩ := by rw [h9]
  have hsnd : (loopStep env s 9 p).snd = ["Homing pipette...", "OK:109"] := by rw [h9]
  have hst := loopStep_status_eq env2 (⟨true, 1 / 2, 0⟩ : PipetteState) q
  refine ⟨hfst, hsnd, ?_, ?_⟩
  · rw [hfst, hst]
    exact getPipetteStatus_home
  · rw [hfst, hst]

/-- Counterexample to C7 as stated: the homed state (0.4 mm, volume -1 µL)
is reachable (home, then aspirate of -1 µL); from it, aspirating 5 µL
succeeds, yet the immediate dispense of 5 µL fails, because the volume
check 5 > (-1 + 5) fires. -/
theorem claim_C7_counterexample :
    Reachable ⟨true, 2 / 5, -1⟩
    ∧ (aspiratePipette ⟨true, 2 / 5, -1⟩ 5).ok = true
    ∧ (dispensePipette (aspiratePipette ⟨true, 2 / 5, -1⟩ 5).state 5).ok = false := by
  have hre : Reachable ((loopStep env0 (loopStep env0 pipetteInit 9 0).fst 11 (-1)).fst) :=
    Reachable.step env0 11 (-1) (Reachable.step env0 9 0 Reachable.init)
  have h9 : (loopStep env0 pipetteInit 9 0).fst = ⟨true, 1 / 2, 0⟩ := by
    rw [loopStep_home_eq, homePipette_eq]
  have heq : (loopStep env0 (loopStep env0 pipetteInit 9 0).fst 11 (-1)).fst =
      ⟨true, 2 / 5, -1⟩ := by
    rw [h9]
    have h11 : (loopStep env0 (⟨true, 1 / 2, 0⟩ : PipetteState) 11 (-1)).fst =
        (aspiratePipette ⟨true, 1 / 2, 0⟩ (-1)).state := by
      rw [loopStep_fst]
      norm_num
    rw [h11, aspirate_success ⟨true, 1 / 2, 0⟩ (-1) rfl
      (by norm_num [PIPETTE_MAX_POSITION]) (by norm_num)]
    norm_num
  have hokA : (aspiratePipette ⟨true, 2 / 5, -1⟩ 5).ok = true := by
    rw [aspirate_success ⟨true, 2 / 5, -1⟩ 5 rfl
      (by norm_num [PIPETTE_MAX_POSITION]) (by norm_num)]
  refine ⟨heq ▸ hre, hokA, ?_⟩
  rw [aspirate_ok_state _ _ hokA]
  rw [dispense_insufficient _ 5 rfl (by norm_num)]

/-- Claim C7 (amended): from any homed state whose position lies within
`[0, PIPETTE_MAX_POSITION]` and whose volume is nonnegative (as in every
state produced by nonnegative-payload runs), whenever `aspiratePipette v`
succeeds, the immediate `dispensePipette v` also succeeds and restores
`pipettePosition` and `pipetteVolume` to their exact pre-aspirate
values. -/
theorem claim_C7_aspirate_dispense (s : PipetteState) (v : ℚ)
    (hp0 : 0 ≤ s.pipettePosition) (hp1 : s.pipettePosition ≤ PIPETTE_MAX_POSITION)
    (hv0 : 0 ≤ s.pipetteVolume)
    (hok : (aspiratePipette s v).ok = true) :
    (dispensePipette (aspiratePipette s v).state v).ok = true
    ∧ (dispensePipette (aspiratePipette s v).state v).state = s := by
  obtain ⟨hh, hcap, hneg⟩ := (aspirate_ok_iff s v).mp hok
  rw [aspirate_ok_state s v hok]
  have hok2 : (dispensePipette
      (⟨s.pipetteIsHomed, s.pipettePosition + v / 10, s.pipetteVolume + v⟩ :
        PipetteState) v).ok = true := by
    rw [dispense_ok_iff]
    refine ⟨hh, ?_, ?_, ?_⟩
    · show v ≤ s.pipetteVolume + v
      linarith
    · show 0 ≤ s.pipettePosition + v / 10 - v / 10
      linarith
    · show s.pipettePosition + v / 10 - v / 10 ≤ PIPETTE_MAX_POSITION
      linarith
  refine ⟨hok2, ?_⟩
  rw [dispense_ok_state _ v hok2]
  have e1 : (⟨s.pipetteIsHomed, s.pipettePosition + v / 10, s.pipetteVolume + v⟩ :
      PipetteState).pipettePosition - v / 10 = s.pipettePosition := by
    show s.pipettePosition + v / 10 - v / 10 = s.pipettePosition
    ring
  have e2 : (⟨s.pipetteIsHomed, s.pipettePosition + v / 10, s.pipetteVolume + v⟩ :
      PipetteState).pipetteVolume - v = s.pipetteVolume := by
    show s.pipetteVolume + v - v = s.pipetteVolume
    ring
  rw [e1, e2]

/-- Witness for C7 (amended) at the homed state (0.5 mm, 0 µL):
aspirating 20 µL succeeds, and the immediate dispense of 20 µL succeeds
and restores the state. -/
theorem claim_C7_witness :
    (aspiratePipette ⟨true, 1 / 2, 0⟩ 20).ok = true
    ∧ (dispensePipette (aspiratePipette ⟨true, 1 / 2, 0⟩ 20).state 20).ok = true
    ∧ (dispensePipette (aspiratePipette ⟨true, 1 / 2, 0⟩ 20).state 20).state =
        ⟨true, 1 / 2, 0⟩ := by
  have hok : (aspiratePipette ⟨true, 1 / 2, 0⟩ 20).ok = true := by
    rw [aspirate_success ⟨true, 1 / 2, 0⟩ 20 rfl
      (by norm_num [PIPETTE_MAX_POSITION]) (by norm_num)]
  have h := claim_C7_aspirate_dispense ⟨true, 1 / 2, 0⟩ 20 (by norm_num)
    (by norm_num [PIPETTE_MAX_POSITION]) (by norm_num) hok
  exact ⟨hok, h.1, h.2⟩

/-- Claim C8: with the pipette not homed, each of move, aspirate and
dispense returns failure, prints only the not-homed diagnostic, leaves the
whole `PipetteState` unchanged and commands no motion, for every
argument. -/
theorem claim_C8_unhomed (s : PipetteState) (t v w : ℚ)
    (hh : s.pipetteIsHomed = false) :
    movePipetteToPosition s t = ⟨false, s, ["ERROR: Pipette not homed"], []⟩
    ∧ aspiratePipette s v = ⟨false, s, ["ERROR: Pipette not homed"], []⟩
    ∧ dispensePipette s w = ⟨false, s, ["ERROR: Pipette not homed"], []⟩ :=
  ⟨move_not_homed s t hh, aspirate_not_homed s v hh, dispense_not_homed s w hh⟩

/-- Witness for C8 at the unhomed state (7 mm, 3 µL) with arguments 5, 2
and 1. -/
theorem claim_C8_witness :
    movePipetteToPosition ⟨false, 7, 3⟩ 5 =
      ⟨false, ⟨false, 7, 3⟩, ["ERROR: Pipette not homed"], []⟩
    ∧ aspiratePipette ⟨false, 7, 3⟩ 2 =
      ⟨false, ⟨false, 7, 3⟩, ["ERROR: Pipette not homed"], []⟩
    ∧ dispensePipette ⟨false, 7, 3⟩ 1 =
      ⟨false, ⟨false, 7, 3⟩, ["ERROR: Pipette not homed"], []⟩ :=
  claim_C8_unhomed ⟨false, 7, 3⟩ 5 2 1 rfl

/-- Claim C9: for every command code outside the enumerated set
{1..13, 99}, the dispatcher emits exactly the single sentinel line `-1`
and leaves the pipette state untouched. -/
theorem claim_C9_unknown (env : Env) (s : PipetteState) (c : Int) (p : ℚ)
    (h : ∀ k ∈ knownCodes, c ≠ k) :
    loopStep env s c p = (s, ["-1"]) := by
  have h1 : c ≠ 1 := h 1 (by decide)
  have h2 : c ≠ 2 := h 2 (by decide)
  have h3 : c ≠ 3 := h 3 (by decide)
  have h4 : c ≠ 4 := h 4 (by decide)
  have h5 : c ≠ 5 := h 5 (by decide)
  have h6 : c ≠ 6 := h 6 (by decide)
  have h7 : c ≠ 7 := h 7 (by decide)
  have h8 : c ≠ 8 := h 8 (by decide)
  have h9 : c ≠ 9 := h 9 (by decide)
  have h10 : c ≠ 10 := h 10 (by decide)
  have h11 : c ≠ 11 := h 11 (by decide)
  have h12 : c ≠ 12 := h 12 (by decide)
  have h13 : c ≠ 13 := h 13 (by decide)
  have h99 : c ≠ 99 := h 99 (by decide)
  simp only [loopStep]
  rw [if_neg h1, if_neg h2, if_neg h3, if_neg h4, if_neg h5, if_neg h6, if_neg h7,
    if_neg h8, if_neg h9, if_neg h10, if_neg h11, if_neg h12, if_neg h13, if_neg h99]

/-- Witness for C9 at the unknown code 42. -/
theorem claim_C9_witness :
    loopStep env0 pipetteInit 42 0 = (pipetteInit, ["-1"]) :=
  claim_C9_unknown env0 pipetteInit 42 0 (by decide)

/-- Claim C10: one dispatched command sets `pipetteIsHomed` to true exactly
when the code is 9 (home) and otherwise leaves it unchanged; hence once the
pipette is homed no command — pipette or not, failing or not — ever makes
it unhomed again. -/
theorem claim_C10_isHomed_monotone (env : Env) (s : PipetteState) (c : Int) (p : ℚ) :
    (loopStep env s c p).fst.pipetteIsHomed =
      (if c = 9 then true else s.pipetteIsHomed) := by
  rw [loopStep_fst]
  split_ifs with h9 h10 h11 h12
  · rfl
  · exact move_pipetteIsHomed s p
  · exact aspirate_pipetteIsHomed s p
  · exact dispense_pipetteIsHomed s p
  · rfl

end Pawduino
